import Mathlib

/-!
Verification of the configuration framework declared in
`src/plugins/convert/_config.py` (faceswap convert-plugin configuration).

The file `_config.py` declares the schema (sections and items) via
`Config.set_defaults`, calling `add_section` / `add_item` inherited from
`lib.config.FaceswapConfig`.  The registry machinery itself
(`add_section`, `add_item`, `set`, `get`, `section_items`, `serialize`,
`load`) and the list `lib.utils._video_extensions` are not part of the
excerpt, so they are modelled from the specification (marked below);
the schema declaration sequence is translated directly from the source.

Python floats are modelled as rationals (every literal in the schema is
a finite decimal), Python ints as integers carried in the same numeric
value constructor, and documentation strings (`info`), which the spec
declares "not semantically enforced", are elided.
-/

/-- The four supported option datatypes (`str`, `int`, `float`, `bool`). -/
inductive Datatype where
  | dstr
  | dint
  | dfloat
  | dbool
deriving DecidableEq

/-- A configuration value: a string, a numeric value (int or float,
modelled as an exact rational), or a boolean. -/
inductive CVal where
  | vstr (s : String)
  | vnum (q : ℚ)
  | vbool (b : Bool)
deriving DecidableEq

/-- A declared option.  Fields mirror the keyword arguments of
`add_item` in the source; `value` is the option's current (committed)
value, initialised to `default`. -/
structure ConfigItem where
  title : String
  datatype : Datatype
  default : CVal
  choices : Option (List String)
  min_max : Option (ℚ × ℚ)
  rounding : Option ℕ
  value : CVal
deriving DecidableEq

/-- A named group of options, in declaration order. -/
structure ConfigSection where
  title : String
  items : List ConfigItem
deriving DecidableEq

/-- The registry: ordered collection of sections. -/
abbrev Registry := List ConfigSection

/-- `BLUR_TYPES` from `_config.py` line 11. -/
def BLUR_TYPES : List String := ["gaussian", "normalized", "none"]

/-- Embedding of Python's `ext.replace(".", "")` (line 181): removing
every `'.'` character from a string. -/
def removeDots (s : String) : String := ⟨s.data.filter (fun c => c ≠ '.')⟩

/-- Does a raw value's shape match the declared datatype?  (Python's
type conversion, abstracted: a value is accepted iff it carries the
declared kind.) -/
def typeMatches (dt : Datatype) (v : CVal) : Bool :=
  match dt, v with
  | .dstr, .vstr _ => true
  | .dint, .vnum _ => true
  | .dfloat, .vnum _ => true
  | .dbool, .vbool _ => true
  | _, _ => false

/-- Modelled from the spec: the `choices` precondition of `add_item`
(lib/config, not in the excerpt): "if `choices` given, `default` must
be a member". -/
def choicesOKP (choices : Option (List String)) (v : CVal) : Prop :=
  match choices, v with
  | none, _ => True
  | some cs, .vstr s => s ∈ cs
  | some _, _ => False

instance instDecChoicesOKP :
    ∀ (choices : Option (List String)) (v : CVal), Decidable (choicesOKP choices v)
  | none, .vstr _ => isTrue trivial
  | none, .vnum _ => isTrue trivial
  | none, .vbool _ => isTrue trivial
  | some cs, .vstr s => inferInstanceAs (Decidable (s ∈ cs))
  | some _, .vnum _ => isFalse id
  | some _, .vbool _ => isFalse id

/-- Modelled from the spec: the `min_max` precondition of `add_item`
(lib/config, not in the excerpt): "if `min_max` given, `default` must
lie within `[lo, hi]` and `datatype` must be numeric". -/
def minMaxOKP (dt : Datatype) (min_max : Option (ℚ × ℚ)) (v : CVal) : Prop :=
  match min_max, v with
  | none, _ => True
  | some (lo, hi), .vnum q => (dt = .dint ∨ dt = .dfloat) ∧ lo ≤ q ∧ q ≤ hi
  | some _, _ => False

instance instDecMinMaxOKP :
    ∀ (dt : Datatype) (min_max : Option (ℚ × ℚ)) (v : CVal), Decidable (minMaxOKP dt min_max v)
  | _, none, .vstr _ => isTrue trivial
  | _, none, .vnum _ => isTrue trivial
  | _, none, .vbool _ => isTrue trivial
  | dt, some (lo, hi), .vnum q =>
      inferInstanceAs (Decidable ((dt = .dint ∨ dt = .dfloat) ∧ lo ≤ q ∧ q ≤ hi))
  | _, some (_, _), .vstr _ => isFalse id
  | _, some (_, _), .vbool _ => isFalse id

/-- Modelled from the spec: `add_section(title, info)` of
`lib.config.FaceswapConfig` (not in the excerpt): "registers a new
section. Fails (DuplicateSectionError) if `title` already exists."
Failure is modelled as `none`. -/
def add_section (cfg : Registry) (title : String) : Option Registry :=
  if title ∈ cfg.map (fun s => s.title) then none
  else some (cfg ++ [⟨title, []⟩])

/-- Modelled from the spec: the section/title lookup part of
`add_item`: the item is appended to the (already registered) section,
failing if the section is missing or the `(section, title)` pair is
already taken. -/
def addItemToSections (sects : List ConfigSection) (sect : String) (it : ConfigItem) :
    Option (List ConfigSection) :=
  match sects with
  | [] => none
  | s :: rest =>
    if s.title = sect then
      if it.title ∈ s.items.map (fun i => i.title) then none
      else some ({ s with items := s.items ++ [it] } :: rest)
    else
      (addItemToSections rest sect it).map (fun r => s :: r)

/-- Modelled from the spec: `add_item(section, title, datatype,
default, choices, min_max, rounding, info)` of
`lib.config.FaceswapConfig` (not in the excerpt).  Preconditions
(spec §4.1): section registered, `(section, title)` unique, `default`
a member of `choices` when given, `default` within `min_max` and the
datatype numeric when given, `choices` and `min_max` mutually
exclusive.  A violation is a fatal schema error, modelled as `none`;
on success the option is stored with `default` as its current value. -/
def add_item (cfg : Registry) (sect title : String) (dt : Datatype) (default : CVal)
    (choices : Option (List String)) (min_max : Option (ℚ × ℚ)) (rounding : Option ℕ) :
    Option Registry :=
  if typeMatches dt default ∧ choicesOKP choices default ∧ minMaxOKP dt min_max default
      ∧ ¬(choices.isSome ∧ min_max.isSome) then
    addItemToSections cfg sect ⟨title, dt, default, choices, min_max, rounding, default⟩
  else none

namespace Config

/-!
`Config.set_defaults` from `_config.py` lines 21-264: the full schema
declaration sequence, translated call by call (the `info` documentation
strings are elided).  Each `declare_*` definition below covers one
`section = ...` block of the source; `set_defaults` chains them in
source order.  `vexts` stands for `lib.utils._video_extensions`, which
is not part of the excerpt and is therefore kept as a parameter;
line 181 derives the `container` choices from it as
`[ext.replace(".", "") for ext in _video_extensions]`.
-/

/-- `_config.py` lines 30-64: the `mask.box_blend` section block. -/
def declare_box_blend (cfg : Registry) : Option Registry :=
  (add_section cfg "mask.box_blend").bind fun cfg =>
  (add_item cfg "mask.box_blend" "type" .dstr (.vstr "gaussian")
      (some BLUR_TYPES) none none).bind fun cfg =>
  (add_item cfg "mask.box_blend" "distance" .dfloat (.vnum 11.0)
      none (some (0.1, 25.0)) (some 1)).bind fun cfg =>
  (add_item cfg "mask.box_blend" "radius" .dfloat (.vnum 5.0)
      none (some (0.1, 25.0)) (some 1)).bind fun cfg =>
  add_item cfg "mask.box_blend" "passes" .dint (.vnum 1)
      none (some (1, 8)) (some 1)

/-- `_config.py` lines 66-95: the `mask.mask_blend` section block. -/
def declare_mask_blend (cfg : Registry) : Option Registry :=
  (add_section cfg "mask.mask_blend").bind fun cfg =>
  (add_item cfg "mask.mask_blend" "type" .dstr (.vstr "normalized")
      (some BLUR_TYPES) none none).bind fun cfg =>
  (add_item cfg "mask.mask_blend" "radius" .dfloat (.vnum 3.0)
      none (some (0.1, 25.0)) (some 1)).bind fun cfg =>
  (add_item cfg "mask.mask_blend" "passes" .dint (.vnum 4)
      none (some (1, 8)) (some 1)).bind fun cfg =>
  add_item cfg "mask.mask_blend" "erosion" .dfloat (.vnum 0.0)
      none (some (-100.0, 100.0)) (some 1)

/-- `_config.py` lines 97-120: the `color.color_transfer` section block. -/
def declare_color_transfer (cfg : Registry) : Option Registry :=
  (add_section cfg "color.color_transfer").bind fun cfg =>
  (add_item cfg "color.color_transfer" "clip" .dbool (.vbool true)
      none none none).bind fun cfg =>
  add_item cfg "color.color_transfer" "preserve_paper" .dbool (.vbool true)
      none none none

/-- `_config.py` lines 122-130: the `color.match_hist` section block. -/
def declare_match_hist (cfg : Registry) : Option Registry :=
  (add_section cfg "color.match_hist").bind fun cfg =>
  add_item cfg "color.match_hist" "threshold" .dfloat (.vnum 99.0)
      none (some (90.0, 100.0)) (some 1)

/-- `_config.py` lines 132-173: the `scaling.sharpen` section block. -/
def declare_sharpen (cfg : Registry) : Option Registry :=
  (add_section cfg "scaling.sharpen").bind fun cfg =>
  (add_item cfg "scaling.sharpen" "method" .dstr (.vstr "unsharp_mask")
      (some ["box", "gaussian", "unsharp_mask"]) none none).bind fun cfg =>
  (add_item cfg "scaling.sharpen" "amount" .dint (.vnum 150)
      none (some (100, 500)) (some 1)).bind fun cfg =>
  (add_item cfg "scaling.sharpen" "radius" .dfloat (.vnum 0.3)
      none (some (0.1, 5.0)) (some 1)).bind fun cfg =>
  add_item cfg "scaling.sharpen" "threshold" .dfloat (.vnum 5.0)
      none (some (1.0, 10.0)) (some 1)

/-- `_config.py` lines 175-188: the `video.global` section block.
The `container` choices are `[ext.replace(".", "") for ext in
_video_extensions]` (line 181). -/
def declare_video_global (vexts : List String) (cfg : Registry) : Option Registry :=
  (add_section cfg "video.global").bind fun cfg =>
  (add_item cfg "video.global" "container" .dstr (.vstr "mp4")
      (some (vexts.map removeDots)) none none).bind fun cfg =>
  add_item cfg "video.global" "codec" .dstr (.vstr "libx264")
      (some ["libx264", "libx265"]) none none

/-- `_config.py` lines 190-234: the `video.libx264` section block. -/
def declare_libx264 (cfg : Registry) : Option Registry :=
  (add_section cfg "video.libx264").bind fun cfg =>
  (add_item cfg "video.libx264" "crf" .dint (.vnum 23)
      none (some (0, 51)) (some 1)).bind fun cfg =>
  (add_item cfg "video.libx264" "preset" .dstr (.vstr "medium")
      (some ["ultrafast", "superfast", "veryfast", "faster", "fast", "medium", "slow",
             "slower", "veryslow"]) none none).bind fun cfg =>
  (add_item cfg "video.libx264" "tune" .dstr (.vstr "none")
      (some ["none", "film", "animation", "grain", "stillimage", "fastdecode",
             "zerolatency"]) none none).bind fun cfg =>
  (add_item cfg "video.libx264" "profile" .dstr (.vstr "auto")
      (some ["auto", "baseline", "main", "high", "high10", "high422", "high444"])
      none none).bind fun cfg =>
  add_item cfg "video.libx264" "level" .dstr (.vstr "auto")
      (some ["auto", "1", "1b", "1.1", "1.2", "1.3", "2", "2.1", "2.2", "3", "3.1", "3.2",
             "4", "4.1", "4.2", "5", "5.1", "5.2", "6", "6.1", "6.2"]) none none

/-- `_config.py` lines 236-264: the `video.libx265` section block. -/
def declare_libx265 (cfg : Registry) : Option Registry :=
  (add_section cfg "video.libx265").bind fun cfg =>
  (add_item cfg "video.libx265" "crf" .dint (.vnum 28)
      none (some (0, 51)) (some 1)).bind fun cfg =>
  (add_item cfg "video.libx265" "preset" .dstr (.vstr "medium")
      (some ["ultrafast", "superfast", "veryfast", "faster", "fast", "medium", "slow",
             "slower", "veryslow"]) none none).bind fun cfg =>
  add_item cfg "video.libx265" "tune" .dstr (.vstr "none")
      (some ["none", "grain", "fastdecode", "zerolatency"]) none none

/-- `Config.set_defaults` (`_config.py` lines 21-264): declare all
eight sections in source order, starting from the empty registry. -/
def set_defaults (vexts : List String) : Option Registry :=
  (declare_box_blend []).bind fun cfg =>
  (declare_mask_blend cfg).bind fun cfg =>
  (declare_color_transfer cfg).bind fun cfg =>
  (declare_match_hist cfg).bind fun cfg =>
  (declare_sharpen cfg).bind fun cfg =>
  (declare_video_global vexts cfg).bind fun cfg =>
  (declare_libx264 cfg).bind fun cfg =>
  declare_libx265 cfg

end Config

/-! ### Value assignment (modelled from the spec)

The registry operations below (`set`, `get`, `section_items`,
`serialize`, `load`) live in `lib.config.FaceswapConfig`, which is not
part of the excerpt; they are modelled from spec §4.1, §6 and §7.
-/

/-- Clamp a numeric value into the inclusive range `[lo, hi]`
(spec §4.1: "value is clamped into `[lo, hi]` ... coerced to the
nearest bound"). -/
def clampQ (lo hi q : ℚ) : ℚ := max lo (min hi q)

/-- Snap a numeric value onto the nearest multiple of the grid step `s`
(spec §4.1: "snapped to the nearest multiple of `rounding`"). -/
def snapQ (s w : ℚ) : ℚ := (round (w / s) : ℤ) * s

/-- Modelled from the spec: the grid step implied by a declared
`rounding` value (spec §4.1): for floating-point options `rounding`
gives the display precision — the number of decimal places — so the
step is `(1/10)^rounding`; for integer-typed options `rounding` is the
step itself ("for integer-typed rounding, the result remains an
integer"). -/
def step (dt : Datatype) (r : ℕ) : ℚ :=
  match dt with
  | .dfloat => (1 / 10) ^ r
  | _ => (r : ℚ)

/-- Modelled from the spec: type coercion of a raw value to the
declared datatype (spec §4.1: "value must be convertible to
`datatype`; conversion failure is a validation error", modelled as
`none`). -/
def coerceVal (dt : Datatype) (v : CVal) : Option CVal :=
  match dt, v with
  | .dstr, .vstr s => some (.vstr s)
  | .dint, .vnum q => some (.vnum q)
  | .dfloat, .vnum q => some (.vnum q)
  | .dbool, .vbool b => some (.vbool b)
  | _, _ => none

/-- Modelled from the spec: validation of a raw value against one
option's schema (spec §4.1 `set`): type coercion, then either the
`choices` membership test (reject non-members), or clamping into
`min_max` followed — when `rounding` is declared — by snapping onto
the rounding grid within the already clamped range.  `none` means the
assignment is rejected and the prior value retained. -/
def validateValue (it : ConfigItem) (v : CVal) : Option CVal :=
  match coerceVal it.datatype v with
  | none => none
  | some v' =>
    match it.choices, v' with
    | some cs, .vstr s => if s ∈ cs then some (.vstr s) else none
    | some _, _ => none
    | none, _ =>
      match it.min_max, v' with
      | some (lo, hi), .vnum q =>
        match it.rounding with
        | some r => some (.vnum (clampQ lo hi (snapQ (step it.datatype r) (clampQ lo hi q))))
        | none => some (.vnum (clampQ lo hi q))
      | some _, _ => none
      | none, _ => some v'

/-- Modelled from the spec (§9 design note): the outcome of a `set`
call — committed unchanged, committed after clamping/rounding
adjustment (reported as a warning), or rejected (reported as an error,
prior value retained). -/
inductive SetResult where
  | committed (v : CVal)
  | committedWithAdjustment (v : CVal) (original : CVal)
  | rejected
deriving DecidableEq

/-- Look up the option registered under `(sect, title)`: first section
with that title, first item within it. -/
def findItem (cfg : Registry) (sect title : String) : Option ConfigItem :=
  match cfg.find? (fun s => s.title = sect) with
  | none => none
  | some s => s.items.find? (fun it => it.title = title)

/-- The per-item update applied by `Config.set` once a validated value
`c` is known. -/
def updItem (title : String) (c : CVal) (it : ConfigItem) : ConfigItem :=
  if it.title = title then { it with value := c } else it

/-- The per-section update applied by `Config.set`. -/
def updSection (sect title : String) (c : CVal) (s : ConfigSection) : ConfigSection :=
  if s.title = sect then { s with items := s.items.map (updItem title c) } else s

namespace Config

/-- Modelled from the spec: `set(section, title, value)` (spec §4.1):
validate the raw value against the option's schema and store the
committed (possibly clamped/rounded) result, or reject it leaving the
registry unchanged.  Returns the updated registry and the outcome. -/
def set (cfg : Registry) (sect title : String) (v : CVal) : Registry × SetResult :=
  match findItem cfg sect title with
  | none => (cfg, .rejected)
  | some it =>
    match validateValue it v with
    | none => (cfg, .rejected)
    | some c =>
      (cfg.map (updSection sect title c),
       if c = v then .committed c else .committedWithAdjustment c v)

/-- Modelled from the spec: `get(section, title)` — the current value,
or `none` (LookupError) if the pair is unregistered. -/
def get (cfg : Registry) (sect title : String) : Option CVal :=
  (findItem cfg sect title).map (fun it => it.value)

/-- Modelled from the spec: `section_items(section)` — the section's
options in declaration order (spec §4.1; the lazy sequence is modelled
as the underlying list). -/
def section_items (cfg : Registry) (sect : String) : List ConfigItem :=
  match cfg.find? (fun s => s.title = sect) with
  | none => []
  | some s => s.items

/-- Modelled from the spec: `serialize()` — the flat persisted
representation, one `("<section>.<title>", value)` entry per declared
option (spec §6). -/
def serialize (cfg : Registry) : List (String × CVal) :=
  (cfg.map (fun s => s.items.map (fun it => (s.title ++ "." ++ it.title, it.value)))).flatten

/-- Modelled from the spec: applying one persisted entry during
`load` — every option whose `"<section>.<title>"` key matches is
re-validated with the entry's value exactly as `set` would; an invalid
value falls back to the current value with a warning; unknown keys
match no option and are ignored. -/
def loadKey (cfg : Registry) (key : String) (v : CVal) : Registry :=
  cfg.map (fun s =>
    { s with
      items := s.items.map (fun it =>
        if s.title ++ "." ++ it.title = key then
          match validateValue it v with
          | some c => { it with value := c }
          | none => it
        else it) })

/-- Modelled from the spec: `load(raw)` — apply every persisted entry
in order; missing keys simply leave their option untouched (spec §4.1,
§7). -/
def load (cfg : Registry) (entries : List (String × CVal)) : Registry :=
  entries.foldl (fun acc e => loadKey acc e.1 e.2) cfg

end Config

/-! ### The registry produced by `set_defaults`

`builtRegistry vexts` is the explicit registry value that the
declaration sequence produces (proved below); every item's current
`value` is its `default`.
-/

/-- The `mask.box_blend` section as declared. -/
def sec_box_blend : ConfigSection :=
  ⟨"mask.box_blend",
   [⟨"type", .dstr, .vstr "gaussian", some BLUR_TYPES, none, none, .vstr "gaussian"⟩,
    ⟨"distance", .dfloat, .vnum 11.0, none, some (0.1, 25.0), some 1, .vnum 11.0⟩,
    ⟨"radius", .dfloat, .vnum 5.0, none, some (0.1, 25.0), some 1, .vnum 5.0⟩,
    ⟨"passes", .dint, .vnum 1, none, some (1, 8), some 1, .vnum 1⟩]⟩

/-- The `mask.mask_blend` section as declared. -/
def sec_mask_blend : ConfigSection :=
  ⟨"mask.mask_blend",
   [⟨"type", .dstr, .vstr "normalized", some BLUR_TYPES, none, none, .vstr "normalized"⟩,
    ⟨"radius", .dfloat, .vnum 3.0, none, some (0.1, 25.0), some 1, .vnum 3.0⟩,
    ⟨"passes", .dint, .vnum 4, none, some (1, 8), some 1, .vnum 4⟩,
    ⟨"erosion", .dfloat, .vnum 0.0, none, some (-100.0, 100.0), some 1, .vnum 0.0⟩]⟩

/-- The `color.color_transfer` section as declared. -/
def sec_color_transfer : ConfigSection :=
  ⟨"color.color_transfer",
   [⟨"clip", .dbool, .vbool true, none, none, none, .vbool true⟩,
    ⟨"preserve_paper", .dbool, .vbool true, none, none, none, .vbool true⟩]⟩

/-- The `color.match_hist` section as declared. -/
def sec_match_hist : ConfigSection :=
  ⟨"color.match_hist",
   [⟨"threshold", .dfloat, .vnum 99.0, none, some (90.0, 100.0), some 1, .vnum 99.0⟩]⟩

/-- The `scaling.sharpen` section as declared. -/
def sec_sharpen : ConfigSection :=
  ⟨"scaling.sharpen",
   [⟨"method", .dstr, .vstr "unsharp_mask", some ["box", "gaussian", "unsharp_mask"],
     none, none, .vstr "unsharp_mask"⟩,
    ⟨"amount", .dint, .vnum 150, none, some (100, 500), some 1, .vnum 150⟩,
    ⟨"radius", .dfloat, .vnum 0.3, none, some (0.1, 5.0), some 1, .vnum 0.3⟩,
    ⟨"threshold", .dfloat, .vnum 5.0, none, some (1.0, 10.0), some 1, .vnum 5.0⟩]⟩

/-- The `video.global` section as declared; the `container` choices
come from `_video_extensions` with the dots stripped. -/
def sec_video_global (vexts : List String) : ConfigSection :=
  ⟨"video.global",
   [⟨"container", .dstr, .vstr "mp4", some (vexts.map removeDots), none, none, .vstr "mp4"⟩,
    ⟨"codec", .dstr, .vstr "libx264", some ["libx264", "libx265"], none, none,
     .vstr "libx264"⟩]⟩

/-- The `video.libx264` section as declared. -/
def sec_libx264 : ConfigSection :=
  ⟨"video.libx264",
   [⟨"crf", .dint, .vnum 23, none, some (0, 51), some 1, .vnum 23⟩,
    ⟨"preset", .dstr, .vstr "medium",
     some ["ultrafast", "superfast", "veryfast", "faster", "fast", "medium", "slow",
           "slower", "veryslow"], none, none, .vstr "medium"⟩,
    ⟨"tune", .dstr, .vstr "none",
     some ["none", "film", "animation", "grain", "stillimage", "fastdecode",
           "zerolatency"], none, none, .vstr "none"⟩,
    ⟨"profile", .dstr, .vstr "auto",
     some ["auto", "baseline", "main", "high", "high10", "high422", "high444"],
     none, none, .vstr "auto"⟩,
    ⟨"level", .dstr, .vstr "auto",
     some ["auto", "1", "1b", "1.1", "1.2", "1.3", "2", "2.1", "2.2", "3", "3.1", "3.2",
           "4", "4.1", "4.2", "5", "5.1", "5.2", "6", "6.1", "6.2"],
     none, none, .vstr "auto"⟩]⟩

/-- The `video.libx265` section as declared. -/
def sec_libx265 : ConfigSection :=
  ⟨"video.libx265",
   [⟨"crf", .dint, .vnum 28, none, some (0, 51), some 1, .vnum 28⟩,
    ⟨"preset", .dstr, .vstr "medium",
     some ["ultrafast", "superfast", "veryfast", "faster", "fast", "medium", "slow",
           "slower", "veryslow"], none, none, .vstr "medium"⟩,
    ⟨"tune", .dstr, .vstr "none", some ["none", "grain", "fastdecode", "zerolatency"],
     none, none, .vstr "none"⟩]⟩

/-- The registry state right after `set_defaults` succeeds. -/
def builtRegistry (vexts : List String) : Registry :=
  [sec_box_blend, sec_mask_blend, sec_color_transfer, sec_match_hist, sec_sharpen,
   sec_video_global vexts, sec_libx264, sec_libx265]

/-- Registry states reachable from a successful `set_defaults` by any
sequence of `set` calls (spec §3: built once at startup, mutated
subsequently only through validated value assignment). -/
inductive Reachable (vexts : List String) : Registry → Prop
  | init (R : Registry) : Config.set_defaults vexts = some R → Reachable vexts R
  | step (R : Registry) (sect title : String) (v : CVal) :
      Reachable vexts R → Reachable vexts (Config.set R sect title v).1

/-! ### Derived predicates used by the verification -/

/-- `x` lies on the grid of multiples of `s`. -/
def onGrid (s x : ℚ) : Prop := ∃ k : ℤ, x = k * s

/-- Forget current values (reset every option to its default); two
registries with the same `eraseValues` image share their entire
schema and differ at most in current values. -/
def eraseValues (cfg : Registry) : Registry :=
  cfg.map (fun s => { s with items := s.items.map (fun it => { it with value := it.default }) })

/-- The option's declared default satisfies the option's own
constraint (spec §8 default-validity invariant). -/
def DefaultValid (it : ConfigItem) : Prop :=
  (∀ cs, it.choices = some cs → ∃ s, it.default = .vstr s ∧ s ∈ cs) ∧
  (∀ lo hi, it.min_max = some (lo, hi) → ∃ q, it.default = .vnum q ∧ lo ≤ q ∧ q ≤ hi)

/-- Spec §3 invariant: `choices` and `min_max` are mutually exclusive,
`min_max` only on numeric datatypes, boolean options have neither. -/
def ExclusiveOK (it : ConfigItem) : Prop :=
  ¬(it.choices.isSome ∧ it.min_max.isSome) ∧
  (it.min_max.isSome → it.datatype = .dint ∨ it.datatype = .dfloat) ∧
  (it.datatype = .dbool → it.choices = none ∧ it.min_max = none)

/-- The numeric range of an option is well-formed: bounds ordered and,
when a rounding grid is declared, a positive step with both bounds on
the grid. -/
def RangeGood (it : ConfigItem) : Prop :=
  ∀ lo hi, it.min_max = some (lo, hi) →
    it.choices = none ∧ lo ≤ hi ∧
    ∀ r, it.rounding = some r →
      0 < step it.datatype r ∧ onGrid (step it.datatype r) lo ∧ onGrid (step it.datatype r) hi

/-- Every option with a `rounding` grid also has a `min_max` range
(the grid lives inside the clamped range, spec §4.1). -/
def RoundingHasRange (it : ConfigItem) : Prop :=
  it.rounding.isSome → it.min_max.isSome

/-- The option's current value is a fixpoint of validation: re-setting
it commits it unchanged. -/
def goodItem (it : ConfigItem) : Prop :=
  validateValue it it.value = some it.value

/-- All options of the registry hold validation-fixpoint values. -/
def goodAll (cfg : Registry) : Prop :=
  ∀ s ∈ cfg, ∀ it ∈ s.items, goodItem it

/-- The section titles of a registry, in order. -/
def secTitles (cfg : Registry) : List String := cfg.map (fun s => s.title)

/-- The item titles of one section, in order. -/
def itemTitles (s : ConfigSection) : List String := s.items.map (fun it => it.title)

/-- All `(section title, item title)` pairs of a registry. -/
def titlePairs (cfg : Registry) : List (String × String) :=
  (cfg.map (fun s => s.items.map (fun it => (s.title, it.title)))).flatten

/-! ### Evaluation of the declaration sequence -/

theorem declare_box_blend_eval : Config.declare_box_blend [] = some [sec_box_blend] := by
  simp [Config.declare_box_blend, add_section, add_item, addItemToSections,
    typeMatches, choicesOKP, minMaxOKP, BLUR_TYPES, sec_box_blend,
    show ((0.1 : ℚ)) ≤ 11.0 from by norm_num, show ((11.0 : ℚ)) ≤ 25.0 from by norm_num,
    show ((0.1 : ℚ)) ≤ 5.0 from by norm_num, show ((5.0 : ℚ)) ≤ 25.0 from by norm_num,
    show ((1 : ℚ)) ≤ 1 from by norm_num, show ((1 : ℚ)) ≤ 8 from by norm_num]

theorem declare_mask_blend_eval :
    Config.declare_mask_blend [sec_box_blend] = some [sec_box_blend, sec_mask_blend] := by
  simp [Config.declare_mask_blend, add_section, add_item, addItemToSections,
    typeMatches, choicesOKP, minMaxOKP, BLUR_TYPES, sec_box_blend, sec_mask_blend,
    show ((0.1 : ℚ)) ≤ 3.0 from by norm_num, show ((3.0 : ℚ)) ≤ 25.0 from by norm_num,
    show ((1 : ℚ)) ≤ 4 from by norm_num, show ((4 : ℚ)) ≤ 8 from by norm_num,
    show ((-100.0 : ℚ)) ≤ 0.0 from by norm_num, show ((0.0 : ℚ)) ≤ 100.0 from by norm_num]

theorem declare_color_transfer_eval :
    Config.declare_color_transfer [sec_box_blend, sec_mask_blend] =
      some [sec_box_blend, sec_mask_blend, sec_color_transfer] := by
  simp [Config.declare_color_transfer, add_section, add_item, addItemToSections,
    typeMatches, choicesOKP, minMaxOKP,
    sec_box_blend, sec_mask_blend, sec_color_transfer]

theorem declare_match_hist_eval :
    Config.declare_match_hist [sec_box_blend, sec_mask_blend, sec_color_transfer] =
      some [sec_box_blend, sec_mask_blend, sec_color_transfer, sec_match_hist] := by
  simp [Config.declare_match_hist, add_section, add_item, addItemToSections,
    typeMatches, choicesOKP, minMaxOKP,
    sec_box_blend, sec_mask_blend, sec_color_transfer, sec_match_hist,
    show ((90.0 : ℚ)) ≤ 99.0 from by norm_num, show ((99.0 : ℚ)) ≤ 100.0 from by norm_num]

theorem declare_sharpen_eval :
    Config.declare_sharpen [sec_box_blend, sec_mask_blend, sec_color_transfer,
        sec_match_hist] =
      some [sec_box_blend, sec_mask_blend, sec_color_transfer, sec_match_hist,
        sec_sharpen] := by
  simp [Config.declare_sharpen, add_section, add_item, addItemToSections,
    typeMatches, choicesOKP, minMaxOKP,
    sec_box_blend, sec_mask_blend, sec_color_transfer, sec_match_hist, sec_sharpen,
    show ((100 : ℚ)) ≤ 150 from by norm_num, show ((150 : ℚ)) ≤ 500 from by norm_num,
    show ((0.1 : ℚ)) ≤ 0.3 from by norm_num, show ((0.3 : ℚ)) ≤ 5.0 from by norm_num,
    show ((1.0 : ℚ)) ≤ 5.0 from by norm_num, show ((5.0 : ℚ)) ≤ 10.0 from by norm_num]

theorem declare_video_global_eval (vexts : List String) (h : "mp4" ∈ vexts.map removeDots) :
    Config.declare_video_global vexts [sec_box_blend, sec_mask_blend, sec_color_transfer,
        sec_match_hist, sec_sharpen] =
      some [sec_box_blend, sec_mask_blend, sec_color_transfer, sec_match_hist, sec_sharpen,
        sec_video_global vexts] := by
  simp [Config.declare_video_global, add_section, add_item, addItemToSections,
    typeMatches, choicesOKP, minMaxOKP, h,
    sec_box_blend, sec_mask_blend, sec_color_transfer, sec_match_hist, sec_sharpen,
    sec_video_global]

theorem declare_video_global_none (vexts : List String)
    (h : "mp4" ∉ vexts.map removeDots) :
    Config.declare_video_global vexts [sec_box_blend, sec_mask_blend, sec_color_transfer,
        sec_match_hist, sec_sharpen] = none := by
  simp [Config.declare_video_global, add_section, add_item, addItemToSections,
    typeMatches, choicesOKP, minMaxOKP, h,
    sec_box_blend, sec_mask_blend, sec_color_transfer, sec_match_hist, sec_sharpen]

theorem declare_libx264_eval (vexts : List String) :
    Config.declare_libx264 [sec_box_blend, sec_mask_blend, sec_color_transfer,
        sec_match_hist, sec_sharpen, sec_video_global vexts] =
      some [sec_box_blend, sec_mask_blend, sec_color_transfer, sec_match_hist, sec_sharpen,
        sec_video_global vexts, sec_libx264] := by
  simp [Config.declare_libx264, add_section, add_item, addItemToSections,
    typeMatches, choicesOKP, minMaxOKP,
    sec_box_blend, sec_mask_blend, sec_color_transfer, sec_match_hist, sec_sharpen,
    sec_video_global, sec_libx264,
    show ((0 : ℚ)) ≤ 23 from by norm_num, show ((23 : ℚ)) ≤ 51 from by norm_num]

theorem declare_libx265_eval (vexts : List String) :
    Config.declare_libx265 [sec_box_blend, sec_mask_blend, sec_color_transfer,
        sec_match_hist, sec_sharpen, sec_video_global vexts, sec_libx264] =
      some (builtRegistry vexts) := by
  simp [Config.declare_libx265, add_section, add_item, addItemToSections,
    typeMatches, choicesOKP, minMaxOKP, builtRegistry,
    sec_box_blend, sec_mask_blend, sec_color_transfer, sec_match_hist, sec_sharpen,
    sec_video_global, sec_libx264, sec_libx265,
    show ((0 : ℚ)) ≤ 28 from by norm_num, show ((28 : ℚ)) ≤ 51 from by norm_num]

/-- When `"mp4"` is among the derived container choices (which the spec
guarantees: the default must be a legal choice), the whole declaration
sequence succeeds and produces `builtRegistry`. -/
theorem set_defaults_eq (vexts : List String) (h : "mp4" ∈ vexts.map removeDots) :
    Config.set_defaults vexts = some (builtRegistry vexts) := by
  rw [Config.set_defaults, declare_box_blend_eval, Option.some_bind,
    declare_mask_blend_eval, Option.some_bind, declare_color_transfer_eval,
    Option.some_bind, declare_match_hist_eval, Option.some_bind, declare_sharpen_eval,
    Option.some_bind, declare_video_global_eval vexts h, Option.some_bind,
    declare_libx264_eval, Option.some_bind, declare_libx265_eval]

/-- Without `"mp4"` among the derived container choices the `container`
declaration violates its own default-validity precondition and
`set_defaults` aborts. -/
theorem set_defaults_none (vexts : List String) (h : "mp4" ∉ vexts.map removeDots) :
    Config.set_defaults vexts = none := by
  rw [Config.set_defaults, declare_box_blend_eval, Option.some_bind,
    declare_mask_blend_eval, Option.some_bind, declare_color_transfer_eval,
    Option.some_bind, declare_match_hist_eval, Option.some_bind, declare_sharpen_eval,
    Option.some_bind, declare_video_global_none vexts h, Option.none_bind]

/-- Inversion: a successful `set_defaults` forces both the `"mp4"`
membership and the exact resulting registry. -/
theorem set_defaults_some (vexts : List String) (R : Registry)
    (hR : Config.set_defaults vexts = some R) :
    "mp4" ∈ vexts.map removeDots ∧ R = builtRegistry vexts := by
  by_cases h : "mp4" ∈ vexts.map removeDots
  · refine ⟨h, ?_⟩
    rw [set_defaults_eq vexts h] at hR
    exact (Option.some.inj hR).symm
  · rw [set_defaults_none vexts h] at hR
    exact absurd hR (by simp)

/-! ### Clamping and snapping -/

theorem clampQ_of_le {lo hi q : ℚ} (hlohi : lo ≤ hi) (h : q ≤ lo) : clampQ lo hi q = lo := by
  unfold clampQ
  rw [min_eq_right (h.trans hlohi), max_eq_left h]

theorem clampQ_of_ge {lo hi q : ℚ} (hlohi : lo ≤ hi) (h : hi ≤ q) : clampQ lo hi q = hi := by
  unfold clampQ
  rw [min_eq_left h, max_eq_right hlohi]

theorem clampQ_id {lo hi q : ℚ} (h1 : lo ≤ q) (h2 : q ≤ hi) : clampQ lo hi q = q := by
  unfold clampQ
  rw [min_eq_right h2, max_eq_right h1]

theorem clampQ_mem {lo hi : ℚ} (hlohi : lo ≤ hi) (q : ℚ) :
    lo ≤ clampQ lo hi q ∧ clampQ lo hi q ≤ hi := by
  unfold clampQ
  constructor
  · exact le_max_left lo (min hi q)
  · exact max_le hlohi (min_le_left hi q)

theorem snapQ_fixed {s x : ℚ} (hs : s ≠ 0) (hx : onGrid s x) : snapQ s x = x := by
  obtain ⟨k, rfl⟩ := hx
  unfold snapQ
  rw [mul_div_assoc, div_self hs, mul_one, round_intCast]

theorem snapQ_onGrid (s x : ℚ) : onGrid s (snapQ s x) := ⟨round (x / s), rfl⟩

theorem onGrid_min {s a b : ℚ} (ha : onGrid s a) (hb : onGrid s b) : onGrid s (min a b) := by
  rcases min_choice a b with h | h <;> rw [h] <;> assumption

theorem onGrid_max {s a b : ℚ} (ha : onGrid s a) (hb : onGrid s b) : onGrid s (max a b) := by
  rcases max_choice a b with h | h <;> rw [h] <;> assumption

theorem onGrid_clampQ {s lo hi x : ℚ} (hlo : onGrid s lo) (hhi : onGrid s hi)
    (hx : onGrid s x) : onGrid s (clampQ lo hi x) :=
  onGrid_max hlo (onGrid_min hhi hx)

theorem snapQ_mono {s x y : ℚ} (hs : 0 < s) (h : x ≤ y) : snapQ s x ≤ snapQ s y := by
  unfold snapQ
  have hdiv : x / s ≤ y / s := (div_le_div_iff_of_pos_right hs).mpr h
  have hround : round (x / s) ≤ round (y / s) := by
    rw [round_eq, round_eq]
    exact Int.floor_mono (add_le_add_right hdiv (1 / 2))
  exact mul_le_mul_of_nonneg_right (Int.cast_le.mpr hround) hs.le

theorem snapQ_nearest {s x : ℚ} (hs : 0 < s) (m : ℤ) :
    |snapQ s x - x| ≤ |(m : ℚ) * s - x| := by
  have hx : (x / s) * s = x := div_mul_cancel₀ x hs.ne'
  have h1 : snapQ s x - x = ((round (x / s) : ℚ) - x / s) * s := by
    rw [snapQ, sub_mul, hx]
  have h2 : (m : ℚ) * s - x = ((m : ℚ) - x / s) * s := by
    rw [sub_mul, hx]
  rw [h1, h2, abs_mul, abs_mul]
  refine mul_le_mul_of_nonneg_right ?_ (abs_nonneg s)
  rw [abs_sub_comm, abs_sub_comm (m : ℚ) (x / s)]
  exact round_le (x / s) m

/-! ### Properties of validation -/

theorem validateValue_value_irrel (it : ConfigItem) (c v : CVal) :
    validateValue { it with value := c } v = validateValue it v := by
  cases it
  rfl

theorem coerceVal_idem {dt : Datatype} {v v' : CVal} (h : coerceVal dt v = some v') :
    coerceVal dt v' = some v' := by
  cases dt <;> cases v <;> simp_all [coerceVal] <;> subst h <;> rfl

/-- A value that is not a member of the declared `choices` is rejected
outright, whatever its shape. -/
theorem validateValue_choices_reject {it : ConfigItem} {cs : List String}
    (hch : it.choices = some cs) {s : String} (hs : s ∉ cs) :
    validateValue it (.vstr s) = none := by
  obtain ⟨t, dt, df, ch, mm, ro, val⟩ := it
  simp only at hch
  subst hch
  cases dt <;> simp [validateValue, coerceVal, hs]

/-- A member of the declared `choices` on a string option is committed
unchanged. -/
theorem validateValue_choices_accept {it : ConfigItem} {cs : List String}
    (hch : it.choices = some cs) (hdt : it.datatype = .dstr) {s : String} (hs : s ∈ cs) :
    validateValue it (.vstr s) = some (.vstr s) := by
  obtain ⟨t, dt, df, ch, mm, ro, val⟩ := it
  simp only at hch hdt
  subst hch hdt
  simp [validateValue, coerceVal, hs]

/-- Validation of a numeric value against a ranged option with a
rounding grid: clamp, snap, clamp. -/
theorem validateValue_minmax_round {it : ConfigItem} {lo hi : ℚ} {r : ℕ}
    (hch : it.choices = none) (hmm : it.min_max = some (lo, hi))
    (hro : it.rounding = some r) (hdt : it.datatype = .dint ∨ it.datatype = .dfloat)
    (q : ℚ) :
    validateValue it (.vnum q) =
      some (.vnum (clampQ lo hi (snapQ (step it.datatype r) (clampQ lo hi q)))) := by
  obtain ⟨t, dt, df, ch, mm, ro, val⟩ := it
  simp only at hch hmm hro hdt ⊢
  subst hch hmm hro
  rcases hdt with h | h <;> subst h <;> simp [validateValue, coerceVal]

/-- Validation of a numeric value against a ranged option without
rounding: plain clamping. -/
theorem validateValue_minmax_noround {it : ConfigItem} {lo hi : ℚ}
    (hch : it.choices = none) (hmm : it.min_max = some (lo, hi))
    (hro : it.rounding = none) (hdt : it.datatype = .dint ∨ it.datatype = .dfloat)
    (q : ℚ) :
    validateValue it (.vnum q) = some (.vnum (clampQ lo hi q)) := by
  obtain ⟨t, dt, df, ch, mm, ro, val⟩ := it
  simp only at hch hmm hro hdt ⊢
  subst hch hmm hro
  rcases hdt with h | h <;> subst h <;> simp [validateValue, coerceVal]

/-- An unconstrained option commits any value of the right shape
unchanged. -/
theorem validateValue_unconstrained {it : ConfigItem} {v v' : CVal}
    (hch : it.choices = none) (hmm : it.min_max = none)
    (hco : coerceVal it.datatype v = some v') :
    validateValue it v = some v' := by
  obtain ⟨t, dt, df, ch, mm, ro, val⟩ := it
  simp only at hch hmm hco ⊢
  subst hch hmm
  cases dt <;> cases v <;> simp_all [validateValue, coerceVal]

/-! ### Committed values of ranged options -/

theorem commit_round_eq {lo hi s : ℚ} (hlohi : lo ≤ hi) (hs : 0 < s)
    (hlo : onGrid s lo) (hhi : onGrid s hi) (q : ℚ) :
    clampQ lo hi (snapQ s (clampQ lo hi q)) = snapQ s (clampQ lo hi q) := by
  apply clampQ_id
  · calc lo = snapQ s lo := (snapQ_fixed hs.ne' hlo).symm
      _ ≤ snapQ s (clampQ lo hi q) := snapQ_mono hs (clampQ_mem hlohi q).1
  · calc snapQ s (clampQ lo hi q) ≤ snapQ s hi := snapQ_mono hs (clampQ_mem hlohi q).2
      _ = hi := snapQ_fixed hs.ne' hhi

theorem commit_round_low {lo hi s : ℚ} (hlohi : lo ≤ hi) (hs : 0 < s)
    (hlo : onGrid s lo) {q : ℚ} (hq : q ≤ lo) :
    clampQ lo hi (snapQ s (clampQ lo hi q)) = lo := by
  rw [clampQ_of_le hlohi hq, snapQ_fixed hs.ne' hlo, clampQ_id le_rfl hlohi]

theorem commit_round_high {lo hi s : ℚ} (hlohi : lo ≤ hi) (hs : 0 < s)
    (hhi : onGrid s hi) {q : ℚ} (hq : hi ≤ q) :
    clampQ lo hi (snapQ s (clampQ lo hi q)) = hi := by
  rw [clampQ_of_ge hlohi hq, snapQ_fixed hs.ne' hhi, clampQ_id hlohi le_rfl]

/-! ### Inversion of validation -/

theorem coerceVal_vnum_dt {dt : Datatype} {v : CVal} {q : ℚ}
    (h : coerceVal dt v = some (.vnum q)) : dt = .dint ∨ dt = .dfloat := by
  cases dt <;> cases v <;> simp_all [coerceVal]

theorem validateValue_some_choices {it : ConfigItem} {cs : List String} {v c : CVal}
    (hch : it.choices = some cs) (h : validateValue it v = some c) :
    ∃ s, c = .vstr s ∧ s ∈ cs ∧ coerceVal it.datatype v = some (.vstr s) := by
  obtain ⟨t, dt, df, ch, mm, ro, val⟩ := it
  simp only at hch h ⊢
  subst hch
  rcases hco : coerceVal dt v with _ | v' <;> simp only [validateValue, hco] at h
  · exact absurd h (by simp)
  · rcases v' with s | q | b
    · simp only at h
      split_ifs at h with hm
      injection h with h'
      exact ⟨s, h'.symm, hm, rfl⟩
    · exact absurd h (by simp)
    · exact absurd h (by simp)

theorem validateValue_some_minmax {it : ConfigItem} {lo hi : ℚ} {v c : CVal}
    (hch : it.choices = none) (hmm : it.min_max = some (lo, hi))
    (h : validateValue it v = some c) :
    ∃ q, coerceVal it.datatype v = some (.vnum q) ∧
      c = .vnum (match it.rounding with
        | some r => clampQ lo hi (snapQ (step it.datatype r) (clampQ lo hi q))
        | none => clampQ lo hi q) := by
  obtain ⟨t, dt, df, ch, mm, ro, val⟩ := it
  simp only at hch hmm h ⊢
  subst hch hmm
  cases dt <;> cases v <;> cases ro <;> simp_all [validateValue, coerceVal]

theorem validateValue_some_unconstrained {it : ConfigItem} {v c : CVal}
    (hch : it.choices = none) (hmm : it.min_max = none)
    (h : validateValue it v = some c) : coerceVal it.datatype v = some c := by
  obtain ⟨t, dt, df, ch, mm, ro, val⟩ := it
  simp only at hch hmm h ⊢
  subst hch hmm
  cases dt <;> cases v <;> simp_all [validateValue, coerceVal]

/-- Validation is idempotent on committed values: whatever `set`
commits revalidates to itself (given a well-formed range). -/
theorem validateValue_fix {it : ConfigItem} (hRG : RangeGood it) {v c : CVal}
    (h : validateValue it v = some c) : validateValue it c = some c := by
  rcases hch : it.choices with _ | cs
  · rcases hmm : it.min_max with _ | ⟨lo, hi⟩
    · have hco := validateValue_some_unconstrained hch hmm h
      exact validateValue_unconstrained hch hmm (coerceVal_idem hco)
    · obtain ⟨q, hco, hc⟩ := validateValue_some_minmax hch hmm h
      obtain ⟨_, hlohi, hro⟩ := hRG lo hi hmm
      have hdt := coerceVal_vnum_dt hco
      have hconum : ∀ x : ℚ, coerceVal it.datatype (.vnum x) = some (.vnum x) := by
        rcases hdt with h' | h' <;> rw [h'] <;> intro x <;> rfl
      rcases hrc : it.rounding with _ | r
      · rw [hrc] at hc
        simp only at hc
        subst hc
        rw [validateValue_minmax_noround hch hmm hrc hdt]
        rw [clampQ_id (clampQ_mem hlohi q).1 (clampQ_mem hlohi q).2]
      · obtain ⟨hs, hlo, hhi⟩ := hro r hrc
        rw [hrc] at hc
        simp only at hc
        subst hc
        rw [validateValue_minmax_round hch hmm hrc hdt]
        congr 1
        congr 1
        rw [commit_round_eq hlohi hs hlo hhi q]
        have hmem := (clampQ_mem hlohi q).imp
          (fun h1 => (snapQ_fixed hs.ne' hlo ▸ snapQ_mono hs h1 : lo ≤ snapQ _ _))
          (fun h2 => (snapQ_fixed hs.ne' hhi ▸ snapQ_mono hs h2 : snapQ _ _ ≤ hi))
        rw [clampQ_id hmem.1 hmem.2, snapQ_fixed hs.ne' (snapQ_onGrid _ _),
          clampQ_id hmem.1 hmem.2]
  · obtain ⟨s, hc, hmemb, hco⟩ := validateValue_some_choices hch h
    subst hc
    have hdt : it.datatype = .dstr := by
      cases hdt : it.datatype <;> rw [hdt] at hco <;> cases v <;> simp_all [coerceVal]
    exact validateValue_choices_accept hch hdt hmemb

/-! ### Per-item facts for the declared schema -/

/-- All verification facts for a string option constrained by
`choices`, with its default a member. -/
theorem facts_choices {t d : String} {cs : List String} (hd : d ∈ cs) :
    DefaultValid ⟨t, .dstr, .vstr d, some cs, none, none, .vstr d⟩ ∧
    ExclusiveOK ⟨t, .dstr, .vstr d, some cs, none, none, .vstr d⟩ ∧
    RangeGood ⟨t, .dstr, .vstr d, some cs, none, none, .vstr d⟩ ∧
    RoundingHasRange ⟨t, .dstr, .vstr d, some cs, none, none, .vstr d⟩ ∧
    goodItem ⟨t, .dstr, .vstr d, some cs, none, none, .vstr d⟩ := by
  refine ⟨⟨fun cs' hcs' => ?_, fun lo hi h => by simp_all⟩,
    ⟨by simp, by simp, by simp⟩, fun lo hi h => by simp_all,
    by simp [RoundingHasRange], ?_⟩
  · injection hcs' with h'
    exact ⟨d, rfl, h' ▸ hd⟩
  · exact validateValue_choices_accept rfl rfl hd

/-- All verification facts for an unconstrained boolean option. -/
theorem facts_bool {t : String} {b : Bool} :
    DefaultValid ⟨t, .dbool, .vbool b, none, none, none, .vbool b⟩ ∧
    ExclusiveOK ⟨t, .dbool, .vbool b, none, none, none, .vbool b⟩ ∧
    RangeGood ⟨t, .dbool, .vbool b, none, none, none, .vbool b⟩ ∧
    RoundingHasRange ⟨t, .dbool, .vbool b, none, none, none, .vbool b⟩ ∧
    goodItem ⟨t, .dbool, .vbool b, none, none, none, .vbool b⟩ := by
  refine ⟨⟨fun cs h => by simp_all, fun lo hi h => by simp_all⟩,
    ⟨by simp, by simp, by simp⟩, fun lo hi h => by simp_all,
    by simp [RoundingHasRange], ?_⟩
  exact validateValue_unconstrained rfl rfl rfl

/-- All verification facts for a numeric option with a well-formed
range and rounding grid and an in-range, on-grid default. -/
theorem facts_ranged {t : String} {dt : Datatype} {d lo hi : ℚ} {r : ℕ}
    (hdt : dt = .dint ∨ dt = .dfloat) (hlohi : lo ≤ hi) (hdlo : lo ≤ d) (hdhi : d ≤ hi)
    (hs : 0 < step dt r) (hglo : onGrid (step dt r) lo) (hghi : onGrid (step dt r) hi)
    (hgd : onGrid (step dt r) d) :
    DefaultValid ⟨t, dt, .vnum d, none, some (lo, hi), some r, .vnum d⟩ ∧
    ExclusiveOK ⟨t, dt, .vnum d, none, some (lo, hi), some r, .vnum d⟩ ∧
    RangeGood ⟨t, dt, .vnum d, none, some (lo, hi), some r, .vnum d⟩ ∧
    RoundingHasRange ⟨t, dt, .vnum d, none, some (lo, hi), some r, .vnum d⟩ ∧
    goodItem ⟨t, dt, .vnum d, none, some (lo, hi), some r, .vnum d⟩ := by
  refine ⟨⟨fun cs h => by simp_all, fun lo' hi' h => ?_, ⟩,
    ⟨by simp, fun _ => hdt, fun h => by rcases hdt with h' | h' <;> simp_all⟩,
    fun lo' hi' h => ?_, by simp [RoundingHasRange], ?_⟩
  · injection h with h'
    obtain ⟨rfl, rfl⟩ := Prod.mk.injEq .. ▸ h'
    exact ⟨d, rfl, hdlo, hdhi⟩
  · injection h with h'
    obtain ⟨rfl, rfl⟩ := Prod.mk.injEq .. ▸ h'
    refine ⟨rfl, hlohi, fun r' hr' => ?_⟩
    injection hr' with h''
    subst h''
    exact ⟨hs, hglo, hghi⟩
  · have hv := @validateValue_minmax_round
      ⟨t, dt, .vnum d, none, some (lo, hi), some r, .vnum d⟩ lo hi r rfl rfl rfl hdt d
    rw [goodItem, hv, clampQ_id hdlo hdhi, snapQ_fixed hs.ne' hgd, clampQ_id hdlo hdhi]

/-- Every option declared by `set_defaults` satisfies all verification
facts: default validity, constraint exclusivity, well-formed range and
grid, and the initial value being a validation fixpoint. -/
theorem builtRegistry_facts (vexts : List String) (h : "mp4" ∈ vexts.map removeDots) :
    ∀ s ∈ builtRegistry vexts, ∀ it ∈ s.items,
      DefaultValid it ∧ ExclusiveOK it ∧ RangeGood it ∧ RoundingHasRange it ∧ goodItem it := by
  intro s hs it hit
  simp only [builtRegistry, List.mem_cons, List.not_mem_nil, or_false] at hs
  rcases hs with rfl | rfl | rfl | rfl | rfl | rfl | rfl | rfl <;>
    simp only [sec_box_blend, sec_mask_blend, sec_color_transfer, sec_match_hist,
      sec_sharpen, sec_video_global, sec_libx264, sec_libx265,
      List.mem_cons, List.not_mem_nil, or_false] at hit
  · rcases hit with rfl | rfl | rfl | rfl
    · exact facts_choices (by simp [BLUR_TYPES])
    · exact facts_ranged (Or.inr rfl) (by norm_num) (by norm_num) (by norm_num)
        (by norm_num [step]) ⟨1, by norm_num [step]⟩ ⟨250, by norm_num [step]⟩
        ⟨110, by norm_num [step]⟩
    · exact facts_ranged (Or.inr rfl) (by norm_num) (by norm_num) (by norm_num)
        (by norm_num [step]) ⟨1, by norm_num [step]⟩ ⟨250, by norm_num [step]⟩
        ⟨50, by norm_num [step]⟩
    · exact facts_ranged (Or.inl rfl) (by norm_num) (by norm_num) (by norm_num)
        (by norm_num [step]) ⟨1, by norm_num [step]⟩ ⟨8, by norm_num [step]⟩
        ⟨1, by norm_num [step]⟩
  · rcases hit with rfl | rfl | rfl | rfl
    · exact facts_choices (by simp [BLUR_TYPES])
    · exact facts_ranged (Or.inr rfl) (by norm_num) (by norm_num) (by norm_num)
        (by norm_num [step]) ⟨1, by norm_num [step]⟩ ⟨250, by norm_num [step]⟩
        ⟨30, by norm_num [step]⟩
    · exact facts_ranged (Or.inl rfl) (by norm_num) (by norm_num) (by norm_num)
        (by norm_num [step]) ⟨1, by norm_num [step]⟩ ⟨8, by norm_num [step]⟩
        ⟨4, by norm_num [step]⟩
    · exact facts_ranged (Or.inr rfl) (by norm_num) (by norm_num) (by norm_num)
        (by norm_num [step]) ⟨-1000, by norm_num [step]⟩ ⟨1000, by norm_num [step]⟩
        ⟨0, by norm_num [step]⟩
  · rcases hit with rfl | rfl
    · exact facts_bool
    · exact facts_bool
  · rcases hit with rfl
    exact facts_ranged (Or.inr rfl) (by norm_num) (by norm_num) (by norm_num)
      (by norm_num [step]) ⟨900, by norm_num [step]⟩ ⟨1000, by norm_num [step]⟩
      ⟨990, by norm_num [step]⟩
  · rcases hit with rfl | rfl | rfl | rfl
    · exact facts_choices (by simp)
    · exact facts_ranged (Or.inl rfl) (by norm_num) (by norm_num) (by norm_num)
        (by norm_num [step]) ⟨100, by norm_num [step]⟩ ⟨500, by norm_num [step]⟩
        ⟨150, by norm_num [step]⟩
    · exact facts_ranged (Or.inr rfl) (by norm_num) (by norm_num) (by norm_num)
        (by norm_num [step]) ⟨1, by norm_num [step]⟩ ⟨50, by norm_num [step]⟩
        ⟨3, by norm_num [step]⟩
    · exact facts_ranged (Or.inr rfl) (by norm_num) (by norm_num) (by norm_num)
        (by norm_num [step]) ⟨10, by norm_num [step]⟩ ⟨100, by norm_num [step]⟩
        ⟨50, by norm_num [step]⟩
  · rcases hit with rfl | rfl
    · exact facts_choices h
    · exact facts_choices (by simp)
  · rcases hit with rfl | rfl | rfl | rfl | rfl
    · exact facts_ranged (Or.inl rfl) (by norm_num) (by norm_num) (by norm_num)
        (by norm_num [step]) ⟨0, by norm_num [step]⟩ ⟨51, by norm_num [step]⟩
        ⟨23, by norm_num [step]⟩
    · exact facts_choices (by simp)
    · exact facts_choices (by simp)
    · exact facts_choices (by simp)
    · exact facts_choices (by simp)
  · rcases hit with rfl | rfl | rfl
    · exact facts_ranged (Or.inl rfl) (by norm_num) (by norm_num) (by norm_num)
        (by norm_num [step]) ⟨0, by norm_num [step]⟩ ⟨51, by norm_num [step]⟩
        ⟨28, by norm_num [step]⟩
    · exact facts_choices (by simp)
    · exact facts_choices (by simp)

/-! ### Looking up and updating options -/

theorem findItem_mem {cfg : Registry} {sect t : String} {it : ConfigItem}
    (h : findItem cfg sect t = some it) :
    ∃ s, s ∈ cfg ∧ it ∈ s.items ∧ s.title = sect ∧ it.title = t := by
  rw [findItem] at h
  split at h
  · exact absurd h (by simp)
  · next s hf =>
    have h1 := List.find?_some hf
    have h2 := List.find?_some h
    simp only [decide_eq_true_eq] at h1 h2
    exact ⟨s, List.mem_of_find?_eq_some hf, List.mem_of_find?_eq_some h, h1, h2⟩

theorem findItem_title {cfg : Registry} {sect t : String} {it : ConfigItem}
    (h : findItem cfg sect t = some it) : it.title = t :=
  (findItem_mem h).choose_spec.2.2.2

theorem updSection_title (sect t : String) (c : CVal) (s : ConfigSection) :
    (updSection sect t c s).title = s.title := by
  rw [updSection]
  split <;> rfl

theorem updItem_title (t : String) (c : CVal) (it : ConfigItem) :
    (updItem t c it).title = it.title := by
  rw [updItem]
  split <;> rfl

theorem findItem_map_upd (cfg : Registry) (sect t : String) (c : CVal) :
    findItem (cfg.map (updSection sect t c)) sect t =
      (findItem cfg sect t).map (updItem t c) := by
  rw [findItem, findItem, List.find?_map]
  have hp : ((fun s : ConfigSection => decide (s.title = sect)) ∘ updSection sect t c) =
      (fun s : ConfigSection => decide (s.title = sect)) := by
    funext s
    simp [updSection_title]
  rw [hp]
  cases hf : cfg.find? (fun s => s.title = sect) with
  | none => rfl
  | some s =>
    have hst : s.title = sect := by
      have := List.find?_some hf
      simpa using this
    simp only [Option.map_some']
    simp only [updSection, if_pos hst]
    simp only [List.find?_map]
    have hq : ((fun it : ConfigItem => decide (it.title = t)) ∘ updItem t c) =
        (fun it : ConfigItem => decide (it.title = t)) := by
      funext it
      simp [updItem_title]
    rw [hq]

/-- Full description of a successful `set`: the outcome and the value
read back afterwards. -/
theorem set_spec {cfg : Registry} {sect t : String} {it : ConfigItem} {v c : CVal}
    (hit : findItem cfg sect t = some it) (hval : validateValue it v = some c) :
    Config.set cfg sect t v =
      (cfg.map (updSection sect t c),
       if c = v then .committed c else .committedWithAdjustment c v) ∧
    Config.get (Config.set cfg sect t v).1 sect t = some c := by
  have hset : Config.set cfg sect t v =
      (cfg.map (updSection sect t c),
       if c = v then .committed c else .committedWithAdjustment c v) := by
    simp only [Config.set, hit, hval]
  refine ⟨hset, ?_⟩
  rw [hset, Config.get, findItem_map_upd, hit]
  simp only [Option.map_some']
  simp only [updItem, if_pos (findItem_title hit)]

theorem set_rejected_of_findItem_none {cfg : Registry} {sect t : String} {v : CVal}
    (h : findItem cfg sect t = none) : Config.set cfg sect t v = (cfg, .rejected) := by
  simp only [Config.set, h]

theorem set_rejected_of_validate_none {cfg : Registry} {sect t : String} {it : ConfigItem}
    {v : CVal} (hit : findItem cfg sect t = some it) (hval : validateValue it v = none) :
    Config.set cfg sect t v = (cfg, .rejected) := by
  simp only [Config.set, hit, hval]

theorem updItem_idem (t : String) (c : CVal) (it : ConfigItem) :
    updItem t c (updItem t c it) = updItem t c it := by
  by_cases h1 : it.title = t <;> simp [updItem, h1]

theorem updSection_idem (sect t : String) (c : CVal) (s : ConfigSection) :
    updSection sect t c (updSection sect t c s) = updSection sect t c s := by
  by_cases h1 : s.title = sect
  · simp only [updSection, h1, ite_true, List.map_map]
    congr 1
    exact List.map_congr_left (fun it _ => updItem_idem t c it)
  · simp [updSection, h1]

/-! ### `set` is idempotent and preserves the schema -/

/-- `set` twice with the same raw value produces exactly the same
registry and the same outcome as `set` once. -/
theorem set_idem (cfg : Registry) (sect t : String) (v : CVal) :
    Config.set (Config.set cfg sect t v).1 sect t v = Config.set cfg sect t v := by
  rcases hit : findItem cfg sect t with _ | it
  · rw [set_rejected_of_findItem_none hit]
    exact set_rejected_of_findItem_none hit
  · rcases hval : validateValue it v with _ | c
    · rw [set_rejected_of_validate_none hit hval]
      exact set_rejected_of_validate_none hit hval
    · have hset := (set_spec hit hval).1
      rw [hset]
      show Config.set (cfg.map (updSection sect t c)) sect t v =
        (cfg.map (updSection sect t c),
         if c = v then .committed c else .committedWithAdjustment c v)
      have hit2 : findItem (cfg.map (updSection sect t c)) sect t =
          some (updItem t c it) := by
        rw [findItem_map_upd, hit]
        rfl
      have hupd : updItem t c it = { it with value := c } := by
        rw [updItem, if_pos (findItem_title hit)]
      have hval2 : validateValue (updItem t c it) v = some c := by
        rw [hupd, validateValue_value_irrel, hval]
      rw [(set_spec hit2 hval2).1]
      congr 1
      rw [List.map_map]
      exact List.map_congr_left (fun s _ => updSection_idem sect t c s)

/-- `set` never changes the schema: resetting all values to defaults
erases any difference it made. -/
theorem eraseValues_set (cfg : Registry) (sect t : String) (v : CVal) :
    eraseValues (Config.set cfg sect t v).1 = eraseValues cfg := by
  rcases hit : findItem cfg sect t with _ | it
  · rw [set_rejected_of_findItem_none hit]
  · rcases hval : validateValue it v with _ | c
    · rw [set_rejected_of_validate_none hit hval]
    · rw [(set_spec hit hval).1]
      show eraseValues (cfg.map (updSection sect t c)) = eraseValues cfg
      rw [eraseValues, eraseValues, List.map_map]
      apply List.map_congr_left
      intro s _
      by_cases h1 : s.title = sect
      · simp only [Function.comp_apply, updSection, h1, ite_true, List.map_map]
        congr 1
        apply List.map_congr_left
        intro it' _
        obtain ⟨t', dt', df', ch', mm', ro', val'⟩ := it'
        by_cases h2 : t' = t <;> simp [updItem, h2]
      · simp [updSection, h1]

/-- `set` preserves the all-values-are-fixpoints invariant, given that
section titles and per-section item titles are unique and ranges are
well formed. -/
theorem goodAll_set {cfg : Registry}
    (hsec : ∀ s₁ ∈ cfg, ∀ s₂ ∈ cfg, s₁.title = s₂.title → s₁ = s₂)
    (hitems : ∀ s ∈ cfg, ∀ i₁ ∈ s.items, ∀ i₂ ∈ s.items, i₁.title = i₂.title → i₁ = i₂)
    (hRange : ∀ s ∈ cfg, ∀ it ∈ s.items, RangeGood it)
    (hGood : goodAll cfg) (sect t : String) (v : CVal) :
    goodAll (Config.set cfg sect t v).1 := by
  rcases hit : findItem cfg sect t with _ | it
  · rw [set_rejected_of_findItem_none hit]
    exact hGood
  · rcases hval : validateValue it v with _ | c
    · rw [set_rejected_of_validate_none hit hval]
      exact hGood
    · rw [(set_spec hit hval).1]
      intro s' hs' it' hit'
      obtain ⟨sf, hsf, hitf, hsft, hitt⟩ := findItem_mem hit
      replace hs' : s' ∈ cfg.map (updSection sect t c) := hs'
      obtain ⟨s₀, hs₀, rfl⟩ := List.mem_map.mp hs'
      by_cases h1 : s₀.title = sect
      · rw [updSection, if_pos h1] at hit'
        simp only at hit'
        obtain ⟨it₀, hit₀, rfl⟩ := List.mem_map.mp hit'
        by_cases h2 : it₀.title = t
        · rw [updItem, if_pos h2]
          show validateValue { it₀ with value := c } c = some c
          rw [validateValue_value_irrel]
          have hss : sf = s₀ := hsec sf hsf s₀ hs₀ (hsft.trans h1.symm)
          have hii : it = it₀ := hitems s₀ hs₀ it (hss ▸ hitf) it₀ hit₀ (hitt.trans h2.symm)
          exact validateValue_fix (hRange s₀ hs₀ it₀ hit₀) (hii ▸ hval)
        · rw [updItem, if_neg h2]
          exact hGood s₀ hs₀ it₀ hit₀
      · rw [updSection, if_neg h1] at hit'
        exact hGood s₀ hs₀ it' hit'

/-! ### Schema facts transferred to reachable registries -/

theorem secTitles_erase (cfg : Registry) : secTitles (eraseValues cfg) = secTitles cfg := by
  rw [secTitles, secTitles, eraseValues, List.map_map]
  rfl

theorem builtRegistry_secTitles (vexts : List String) :
    secTitles (builtRegistry vexts) =
      ["mask.box_blend", "mask.mask_blend", "color.color_transfer", "color.match_hist",
       "scaling.sharpen", "video.global", "video.libx264", "video.libx265"] := rfl

theorem builtRegistry_secTitles_nodup (vexts : List String) :
    (secTitles (builtRegistry vexts)).Nodup := by
  rw [builtRegistry_secTitles]
  decide

theorem builtRegistry_itemTitles_nodup (vexts : List String) :
    ∀ s ∈ builtRegistry vexts, (itemTitles s).Nodup := by
  intro s hs
  simp only [builtRegistry, List.mem_cons, List.not_mem_nil, or_false] at hs
  rcases hs with rfl | rfl | rfl | rfl | rfl | rfl | rfl | rfl
  · decide
  · decide
  · decide
  · decide
  · decide
  · rw [show itemTitles (sec_video_global vexts) = ["container", "codec"] from rfl]
    decide
  · decide
  · decide

theorem eraseValues_builtRegistry (vexts : List String) :
    eraseValues (builtRegistry vexts) = builtRegistry vexts := rfl

/-- A registry whose erased image is the declared schema inherits its
uniqueness and range facts. -/
theorem inv_structure {vexts : List String} {cfg : Registry}
    (hmp4 : "mp4" ∈ vexts.map removeDots)
    (hErase : eraseValues cfg = builtRegistry vexts) :
    (∀ s₁ ∈ cfg, ∀ s₂ ∈ cfg, s₁.title = s₂.title → s₁ = s₂) ∧
    (∀ s ∈ cfg, ∀ i₁ ∈ s.items, ∀ i₂ ∈ s.items, i₁.title = i₂.title → i₁ = i₂) ∧
    (∀ s ∈ cfg, ∀ it ∈ s.items, RangeGood it) := by
  have hnodup : (cfg.map (fun s => s.title)).Nodup := by
    have h1 := builtRegistry_secTitles_nodup vexts
    rw [← hErase, secTitles_erase] at h1
    exact h1
  have hmemB : ∀ s ∈ cfg,
      (ConfigSection.mk s.title
        (s.items.map (fun it => { it with value := it.default }))) ∈ builtRegistry vexts := by
    intro s hs
    rw [← hErase]
    exact List.mem_map_of_mem _ hs
  refine ⟨fun s₁ h₁ s₂ h₂ ht => List.inj_on_of_nodup_map hnodup h₁ h₂ ht, ?_, ?_⟩
  · intro s hs i₁ h₁ i₂ h₂ ht
    have hnod : (s.items.map (fun it => it.title)).Nodup := by
      have h2 := builtRegistry_itemTitles_nodup vexts _ (hmemB s hs)
      rw [itemTitles] at h2
      simp only [List.map_map] at h2
      exact h2
    exact List.inj_on_of_nodup_map hnod h₁ h₂ ht
  · intro s hs it hit
    have hmemI : ({ it with value := it.default } : ConfigItem) ∈
        (ConfigSection.mk s.title
          (s.items.map (fun i => { i with value := i.default }))).items :=
      List.mem_map_of_mem _ hit
    have h3 := (builtRegistry_facts vexts hmp4 _ (hmemB s hs) _ hmemI).2.2.1
    exact h3

/-- Invariant along every reachable registry: same schema as the
declared one, and all current values are validation fixpoints. -/
theorem reachable_inv {vexts : List String} {R : Registry} (hR : Reachable vexts R) :
    eraseValues R = builtRegistry vexts ∧ goodAll R ∧ "mp4" ∈ vexts.map removeDots := by
  induction hR with
  | init R h0 =>
    obtain ⟨hmp4, rfl⟩ := set_defaults_some _ _ h0
    refine ⟨eraseValues_builtRegistry vexts, ?_, hmp4⟩
    intro s hs it hit
    exact (builtRegistry_facts vexts hmp4 s hs it hit).2.2.2.2
  | step R sect t v hRe ih =>
    obtain ⟨hErase, hGood, hmp4⟩ := ih
    obtain ⟨hsec, hitems, hRange⟩ := inv_structure hmp4 hErase
    exact ⟨(eraseValues_set R sect t v).trans hErase,
      goodAll_set hsec hitems hRange hGood sect t v, hmp4⟩

/-! ### Serialization round-trip -/

theorem builtRegistry_titlePairs (vexts : List String) :
    titlePairs (builtRegistry vexts) =
      [("mask.box_blend", "type"), ("mask.box_blend", "distance"),
       ("mask.box_blend", "radius"), ("mask.box_blend", "passes"),
       ("mask.mask_blend", "type"), ("mask.mask_blend", "radius"),
       ("mask.mask_blend", "passes"), ("mask.mask_blend", "erosion"),
       ("color.color_transfer", "clip"), ("color.color_transfer", "preserve_paper"),
       ("color.match_hist", "threshold"),
       ("scaling.sharpen", "method"), ("scaling.sharpen", "amount"),
       ("scaling.sharpen", "radius"), ("scaling.sharpen", "threshold"),
       ("video.global", "container"), ("video.global", "codec"),
       ("video.libx264", "crf"), ("video.libx264", "preset"), ("video.libx264", "tune"),
       ("video.libx264", "profile"), ("video.libx264", "level"),
       ("video.libx265", "crf"), ("video.libx265", "preset"),
       ("video.libx265", "tune")] := rfl

/-- The persisted keys `"<section>.<title>"` are pairwise distinct and
determine the `(section, title)` pair. -/
theorem builtRegistry_keyInj (vexts : List String) :
    ∀ p ∈ titlePairs (builtRegistry vexts), ∀ q ∈ titlePairs (builtRegistry vexts),
      p.1 ++ "." ++ p.2 = q.1 ++ "." ++ q.2 → p = q := by
  rw [builtRegistry_titlePairs]
  decide

theorem titlePairs_erase (cfg : Registry) : titlePairs (eraseValues cfg) = titlePairs cfg := by
  rw [titlePairs, titlePairs, eraseValues, List.map_map]
  congr 1
  apply List.map_congr_left
  intro s _
  dsimp only [Function.comp]
  rw [List.map_map]
  rfl

theorem mem_titlePairs {cfg : Registry} {s : ConfigSection} {it : ConfigItem}
    (hs : s ∈ cfg) (hit : it ∈ s.items) : (s.title, it.title) ∈ titlePairs cfg := by
  rw [titlePairs, List.mem_flatten]
  exact ⟨_, List.mem_map_of_mem _ hs, List.mem_map_of_mem _ hit⟩

theorem mem_serialize {cfg : Registry} {e : String × CVal} (he : e ∈ Config.serialize cfg) :
    ∃ s ∈ cfg, ∃ it ∈ s.items, e = (s.title ++ "." ++ it.title, it.value) := by
  rw [Config.serialize, List.mem_flatten] at he
  obtain ⟨l, hl, hel⟩ := he
  obtain ⟨s, hs, rfl⟩ := List.mem_map.mp hl
  obtain ⟨it, hit, rfl⟩ := List.mem_map.mp hel
  exact ⟨s, hs, it, hit, rfl⟩

theorem cval_value_eta (it : ConfigItem) : ({ it with value := it.value } : ConfigItem) = it := by
  cases it
  rfl

/-- Re-loading one of the registry's own serialized entries changes
nothing: the matching option re-validates its current value to itself,
and no other option matches the key. -/
theorem loadKey_self {vexts : List String} {cfg : Registry}
    (hmp4 : "mp4" ∈ vexts.map removeDots)
    (hErase : eraseValues cfg = builtRegistry vexts) (hGood : goodAll cfg)
    {s₀ : ConfigSection} {it₀ : ConfigItem} (hs₀ : s₀ ∈ cfg) (hit₀ : it₀ ∈ s₀.items) :
    Config.loadKey cfg (s₀.title ++ "." ++ it₀.title) it₀.value = cfg := by
  obtain ⟨hsec, hitems, _⟩ := inv_structure hmp4 hErase
  have hpairs : ∀ s ∈ cfg, ∀ it ∈ s.items,
      s.title ++ "." ++ it.title = s₀.title ++ "." ++ it₀.title →
      s.title = s₀.title ∧ it.title = it₀.title := by
    intro s hs it hit hkey
    have hp : (s.title, it.title) ∈ titlePairs (builtRegistry vexts) := by
      rw [← hErase, titlePairs_erase]
      exact mem_titlePairs hs hit
    have hq : (s₀.title, it₀.title) ∈ titlePairs (builtRegistry vexts) := by
      rw [← hErase, titlePairs_erase]
      exact mem_titlePairs hs₀ hit₀
    have := builtRegistry_keyInj vexts _ hp _ hq hkey
    exact ⟨congrArg Prod.fst this, congrArg Prod.snd this⟩
  rw [Config.loadKey]
  have hid : ∀ s ∈ cfg,
      (ConfigSection.mk s.title
        (s.items.map (fun it =>
          if s.title ++ "." ++ it.title = s₀.title ++ "." ++ it₀.title then
            match validateValue it it₀.value with
            | some c => { it with value := c }
            | none => it
          else it))) = s := by
    intro s hs
    have hitem : ∀ it ∈ s.items,
        (if s.title ++ "." ++ it.title = s₀.title ++ "." ++ it₀.title then
          match validateValue it it₀.value with
          | some c => { it with value := c }
          | none => it
        else it) = it := by
      intro it hit
      by_cases hkey : s.title ++ "." ++ it.title = s₀.title ++ "." ++ it₀.title
      · obtain ⟨hst, hitt⟩ := hpairs s hs it hit hkey
        have hseq : s = s₀ := hsec s hs s₀ hs₀ hst
        have hieq : it = it₀ := hitems s hs it hit it₀ (hseq ▸ hit₀) hitt
        subst hieq
        rw [if_pos hkey, hGood s hs it hit]
      · rw [if_neg hkey]
    calc (ConfigSection.mk s.title (s.items.map _)) =
        ConfigSection.mk s.title (s.items.map id) := by
          congr 1
          exact List.map_congr_left hitem
      _ = s := by rw [List.map_id]
  calc cfg.map _ = cfg.map id := List.map_congr_left hid
    _ = cfg := List.map_id cfg

theorem foldl_fixed {α β : Type} (f : α → β → α) (a : α) (l : List β)
    (h : ∀ b ∈ l, f a b = a) : l.foldl f a = a := by
  induction l with
  | nil => rfl
  | cons x xs ih =>
    rw [List.foldl_cons, h x (List.mem_cons_self x xs)]
    exact ih (fun b hb => h b (List.mem_cons_of_mem x hb))

/-- Round trip: loading a registry's own serialization reproduces it
exactly. -/
theorem load_serialize_self {vexts : List String} {cfg : Registry}
    (hmp4 : "mp4" ∈ vexts.map removeDots)
    (hErase : eraseValues cfg = builtRegistry vexts) (hGood : goodAll cfg) :
    Config.load cfg (Config.serialize cfg) = cfg := by
  rw [Config.load]
  apply foldl_fixed
  intro e he
  obtain ⟨s₀, hs₀, it₀, hit₀, rfl⟩ := mem_serialize he
  exact loadKey_self hmp4 hErase hGood hs₀ hit₀

/-! ### The claims -/

/-- C1: for every option declared by `Config.set_defaults`, the
declared default value itself satisfies that option's own constraint:
with `choices`, the default is a member of the choices list; with
`min_max = (lo, hi)`, the default lies within `[lo, hi]` inclusive. -/
theorem spec_C1 (vexts : List String) (R : Registry)
    (hR : Config.set_defaults vexts = some R) :
    ∀ s ∈ R, ∀ it ∈ s.items, DefaultValid it := by
  obtain ⟨hmp4, rfl⟩ := set_defaults_some vexts R hR
  intro s hs it hit
  exact (builtRegistry_facts vexts hmp4 s hs it hit).1

theorem spec_C1_witness :
    ∃ q, (ConfigItem.mk "distance" .dfloat (.vnum 11.0) none (some (0.1, 25.0)) (some 1)
      (.vnum 11.0)).default = .vnum q ∧ (0.1 : ℚ) ≤ q ∧ q ≤ 25.0 :=
  (spec_C1 [".mp4"] (builtRegistry [".mp4"]) (set_defaults_eq [".mp4"] (by decide))
    sec_box_blend (List.mem_cons_self sec_box_blend _)
    ⟨"distance", .dfloat, .vnum 11.0, none, some (0.1, 25.0), some 1, .vnum 11.0⟩
    (List.mem_cons_of_mem _ (List.mem_cons_self _ _))).2 0.1 25.0 rfl

/-- C4: for every registry state reachable after `set_defaults` and
any sequence of `set` calls, `load (serialize ())` reproduces the
exact same state: every option's committed value is unchanged by the
round trip. -/
theorem spec_C4 (vexts : List String) (R : Registry) (hRe : Reachable vexts R) :
    Config.load R (Config.serialize R) = R := by
  obtain ⟨hErase, hGood, hmp4⟩ := reachable_inv hRe
  exact load_serialize_self hmp4 hErase hGood

theorem spec_C4_witness :
    Config.load (builtRegistry [".mp4"]) (Config.serialize (builtRegistry [".mp4"])) =
      builtRegistry [".mp4"] :=
  spec_C4 [".mp4"] (builtRegistry [".mp4"])
    (Reachable.init (builtRegistry [".mp4"]) (set_defaults_eq [".mp4"] (by decide)))

/-- C5: `section_items` yields every section's options in declaration
order — for `video.libx264` exactly `crf, preset, tune, profile,
level` (not alphabetical), and likewise for every other section. -/
theorem spec_C5 (vexts : List String) (R : Registry)
    (hR : Config.set_defaults vexts = some R) :
    (Config.section_items R "video.libx264").map (fun it => it.title) =
      ["crf", "preset", "tune", "profile", "level"] ∧
    (Config.section_items R "mask.box_blend").map (fun it => it.title) =
      ["type", "distance", "radius", "passes"] ∧
    (Config.section_items R "mask.mask_blend").map (fun it => it.title) =
      ["type", "radius", "passes", "erosion"] ∧
    (Config.section_items R "color.color_transfer").map (fun it => it.title) =
      ["clip", "preserve_paper"] ∧
    (Config.section_items R "color.match_hist").map (fun it => it.title) =
      ["threshold"] ∧
    (Config.section_items R "scaling.sharpen").map (fun it => it.title) =
      ["method", "amount", "radius", "threshold"] ∧
    (Config.section_items R "video.global").map (fun it => it.title) =
      ["container", "codec"] ∧
    (Config.section_items R "video.libx265").map (fun it => it.title) =
      ["crf", "preset", "tune"] := by
  obtain ⟨hmp4, rfl⟩ := set_defaults_some vexts R hR
  exact ⟨rfl, rfl, rfl, rfl, rfl, rfl, rfl, rfl⟩

theorem spec_C5_witness :
    (Config.section_items (builtRegistry [".mp4"]) "video.libx264").map
      (fun it => it.title) = ["crf", "preset", "tune", "profile", "level"] :=
  (spec_C5 [".mp4"] (builtRegistry [".mp4"]) (set_defaults_eq [".mp4"] (by decide))).1

/-- C7: every declared option has at most one of `choices` / `min_max`
(never both), `min_max` appears only on integer- or float-typed
options, and boolean options have neither. -/
theorem spec_C7 (vexts : List String) (R : Registry)
    (hR : Config.set_defaults vexts = some R) :
    ∀ s ∈ R, ∀ it ∈ s.items, ExclusiveOK it := by
  obtain ⟨hmp4, rfl⟩ := set_defaults_some vexts R hR
  intro s hs it hit
  exact (builtRegistry_facts vexts hmp4 s hs it hit).2.1

theorem spec_C7_witness :
    ExclusiveOK (ConfigItem.mk "clip" .dbool (.vbool true) none none none (.vbool true)) :=
  spec_C7 [".mp4"] (builtRegistry [".mp4"]) (set_defaults_eq [".mp4"] (by decide))
    sec_color_transfer
    (List.mem_cons_of_mem _ (List.mem_cons_of_mem _ (List.mem_cons_self _ _)))
    ⟨"clip", .dbool, .vbool true, none, none, none, .vbool true⟩
    (List.mem_cons_self _ _)

/-- C8: `set` is idempotent on its raw input: for every option key and
every raw value, calling `set` twice with the same raw value produces
the same registry and the same outcome as calling it once. -/
theorem spec_C8 (cfg : Registry) (sect title : String) (v : CVal) :
    Config.set (Config.set cfg sect title v).1 sect title v = Config.set cfg sect title v :=
  set_idem cfg sect title v

/-- C9: the declaration sequence in `Config.set_defaults` satisfies
every `add_section` / `add_item` precondition, so no schema-definition
error branch is reached: the whole sequence succeeds and produces the
declared registry. -/
theorem spec_C9 (vexts : List String) (h : "mp4" ∈ vexts.map removeDots) :
    Config.set_defaults vexts = some (builtRegistry vexts) :=
  set_defaults_eq vexts h

theorem spec_C9_witness :
    Config.set_defaults [".mp4"] = some (builtRegistry [".mp4"]) :=
  spec_C9 [".mp4"] (by decide)

/-- C10: the `container` choices of `video.global` are exactly the
entries of `_video_extensions` with every `'.'` removed; consequently
no legal `container` value contains a `'.'` character. -/
theorem spec_C10 (vexts : List String) (R : Registry)
    (hR : Config.set_defaults vexts = some R) :
    ∃ it, findItem R "video.global" "container" = some it ∧
      it.choices = some (vexts.map removeDots) ∧
      ∀ c ∈ vexts.map removeDots, '.' ∉ c.data := by
  obtain ⟨hmp4, rfl⟩ := set_defaults_some vexts R hR
  refine ⟨⟨"container", .dstr, .vstr "mp4", some (vexts.map removeDots), none, none,
    .vstr "mp4"⟩, rfl, rfl, ?_⟩
  intro c hc
  obtain ⟨ext, _, rfl⟩ := List.mem_map.mp hc
  rw [removeDots]
  simp [List.mem_filter]

theorem spec_C10_witness :
    ∃ it, findItem (builtRegistry [".mp4"]) "video.global" "container" = some it ∧
      it.choices = some ([".mp4"].map removeDots) ∧
      ∀ c ∈ [".mp4"].map removeDots, '.' ∉ c.data :=
  spec_C10 [".mp4"] (builtRegistry [".mp4"]) (set_defaults_eq [".mp4"] (by decide))

/-- C3: for every option declared with `choices`, `set` with a
non-member value (case-sensitive exact match) rejects the assignment,
leaves the registry unchanged, and reports an error; in particular
setting `mask.box_blend`/`type` to `"bilinear"` is rejected and the
value remains `"gaussian"`. -/
theorem spec_C3 (vexts : List String) (R : Registry)
    (hR : Config.set_defaults vexts = some R) :
    (∀ sect t it, findItem R sect t = some it → ∀ cs, it.choices = some cs →
      ∀ s : String, s ∉ cs → Config.set R sect t (.vstr s) = (R, .rejected)) ∧
    Config.set R "mask.box_blend" "type" (.vstr "bilinear") = (R, .rejected) ∧
    Config.get (Config.set R "mask.box_blend" "type" (.vstr "bilinear")).1
      "mask.box_blend" "type" = some (.vstr "gaussian") := by
  obtain ⟨hmp4, rfl⟩ := set_defaults_some vexts R hR
  have hgen : ∀ sect t it, findItem (builtRegistry vexts) sect t = some it →
      ∀ cs, it.choices = some cs → ∀ s : String, s ∉ cs →
      Config.set (builtRegistry vexts) sect t (.vstr s) = (builtRegistry vexts, .rejected) := by
    intro sect t it hit cs hcs s hs
    exact set_rejected_of_validate_none hit (validateValue_choices_reject hcs hs)
  have hconc : Config.set (builtRegistry vexts) "mask.box_blend" "type" (.vstr "bilinear") =
      (builtRegistry vexts, .rejected) :=
    hgen "mask.box_blend" "type"
      ⟨"type", .dstr, .vstr "gaussian", some BLUR_TYPES, none, none, .vstr "gaussian"⟩
      rfl BLUR_TYPES rfl "bilinear" (by decide)
  refine ⟨hgen, hconc, ?_⟩
  rw [hconc]
  rfl

theorem spec_C3_witness :
    Config.set (builtRegistry [".mp4"]) "mask.box_blend" "type" (.vstr "bilinear") =
      (builtRegistry [".mp4"], .rejected) ∧
    Config.get (Config.set (builtRegistry [".mp4"]) "mask.box_blend" "type"
      (.vstr "bilinear")).1 "mask.box_blend" "type" = some (.vstr "gaussian") :=
  (spec_C3 [".mp4"] (builtRegistry [".mp4"]) (set_defaults_eq [".mp4"] (by decide))).2

/-- C2: for every option declared with `min_max`, `set` with a value
outside `[lo, hi]` is not rejected: the committed value is the nearest
bound (`lo` below, `hi` above) and the outcome is the
committed-with-adjustment (warning) result, not an error; in
particular setting `mask.box_blend`/`distance` (range `(0.1, 25.0)`)
to `40.0` commits `25.0`. -/
theorem spec_C2 (vexts : List String) (R : Registry)
    (hR : Config.set_defaults vexts = some R) :
    (∀ sect t it, findItem R sect t = some it →
      ∀ lo hi, it.min_max = some (lo, hi) → ∀ q : ℚ,
        (q < lo →
          (Config.set R sect t (.vnum q)).2 =
            .committedWithAdjustment (.vnum lo) (.vnum q) ∧
          Config.get (Config.set R sect t (.vnum q)).1 sect t = some (.vnum lo)) ∧
        (hi < q →
          (Config.set R sect t (.vnum q)).2 =
            .committedWithAdjustment (.vnum hi) (.vnum q) ∧
          Config.get (Config.set R sect t (.vnum q)).1 sect t = some (.vnum hi))) ∧
    (Config.set R "mask.box_blend" "distance" (.vnum 40.0)).2 =
      .committedWithAdjustment (.vnum 25.0) (.vnum 40.0) ∧
    Config.get (Config.set R "mask.box_blend" "distance" (.vnum 40.0)).1
      "mask.box_blend" "distance" = some (.vnum 25.0) := by
  obtain ⟨hmp4, rfl⟩ := set_defaults_some vexts R hR
  have hgen : ∀ sect t it, findItem (builtRegistry vexts) sect t = some it →
      ∀ lo hi, it.min_max = some (lo, hi) → ∀ q : ℚ,
        (q < lo →
          (Config.set (builtRegistry vexts) sect t (.vnum q)).2 =
            .committedWithAdjustment (.vnum lo) (.vnum q) ∧
          Config.get (Config.set (builtRegistry vexts) sect t (.vnum q)).1 sect t =
            some (.vnum lo)) ∧
        (hi < q →
          (Config.set (builtRegistry vexts) sect t (.vnum q)).2 =
            .committedWithAdjustment (.vnum hi) (.vnum q) ∧
          Config.get (Config.set (builtRegistry vexts) sect t (.vnum q)).1 sect t =
            some (.vnum hi)) := by
    intro sect t it hit lo hi hmm' q
    obtain ⟨s, hsmem, hitmem, _, _⟩ := findItem_mem hit
    have hfacts := builtRegistry_facts vexts hmp4 s hsmem it hitmem
    obtain ⟨hchn, hlohi, hrost⟩ := hfacts.2.2.1 lo hi hmm'
    have hdt : it.datatype = .dint ∨ it.datatype = .dfloat :=
      hfacts.2.1.2.1 (by rw [hmm']; rfl)
    constructor
    · intro hq
      have hval : validateValue it (.vnum q) = some (.vnum lo) := by
        rcases hro : it.rounding with _ | r
        · rw [validateValue_minmax_noround hchn hmm' hro hdt, clampQ_of_le hlohi hq.le]
        · obtain ⟨hs0, hglo, _⟩ := hrost r hro
          rw [validateValue_minmax_round hchn hmm' hro hdt,
            commit_round_low hlohi hs0 hglo hq.le]
      obtain ⟨hset, hget⟩ := set_spec hit hval
      have hne : (CVal.vnum lo) ≠ (CVal.vnum q) :=
        fun hcontra => absurd (CVal.vnum.inj hcontra) (ne_of_gt hq)
      exact ⟨by rw [hset, if_neg hne], hget⟩
    · intro hq
      have hval : validateValue it (.vnum q) = some (.vnum hi) := by
        rcases hro : it.rounding with _ | r
        · rw [validateValue_minmax_noround hchn hmm' hro hdt, clampQ_of_ge hlohi hq.le]
        · obtain ⟨hs0, _, hghi⟩ := hrost r hro
          rw [validateValue_minmax_round hchn hmm' hro hdt,
            commit_round_high hlohi hs0 hghi hq.le]
      obtain ⟨hset, hget⟩ := set_spec hit hval
      have hne : (CVal.vnum hi) ≠ (CVal.vnum q) :=
        fun hcontra => absurd (CVal.vnum.inj hcontra) (ne_of_lt hq)
      exact ⟨by rw [hset, if_neg hne], hget⟩
  refine ⟨hgen, ?_, ?_⟩
  · exact ((hgen "mask.box_blend" "distance"
      ⟨"distance", .dfloat, .vnum 11.0, none, some (0.1, 25.0), some 1, .vnum 11.0⟩
      rfl 0.1 25.0 rfl 40.0).2 (by norm_num)).1
  · exact ((hgen "mask.box_blend" "distance"
      ⟨"distance", .dfloat, .vnum 11.0, none, some (0.1, 25.0), some 1, .vnum 11.0⟩
      rfl 0.1 25.0 rfl 40.0).2 (by norm_num)).2

theorem spec_C2_witness :
    (Config.set (builtRegistry [".mp4"]) "mask.box_blend" "distance" (.vnum 40.0)).2 =
      .committedWithAdjustment (.vnum 25.0) (.vnum 40.0) ∧
    Config.get (Config.set (builtRegistry [".mp4"]) "mask.box_blend" "distance"
      (.vnum 40.0)).1 "mask.box_blend" "distance" = some (.vnum 25.0) :=
  (spec_C2 [".mp4"] (builtRegistry [".mp4"]) (set_defaults_eq [".mp4"] (by decide))).2

/-- C6: every option declared with `rounding` also has a `min_max`
range, and the value committed by `set` is the snap of the
already-clamped input onto the nearest multiple of the rounding step,
staying within the range; for float-typed options the result has the
decimal precision implied by `rounding` (a multiple of `10^-r`), and
for integer-typed options the result is an integer. -/
theorem spec_C6 (vexts : List String) (R : Registry)
    (hR : Config.set_defaults vexts = some R) :
    (∀ s ∈ R, ∀ it ∈ s.items, RoundingHasRange it) ∧
    (∀ sect t it, findItem R sect t = some it →
      ∀ r, it.rounding = some r → ∀ lo hi, it.min_max = some (lo, hi) → ∀ q : ℚ,
        ∃ c : ℚ,
          (Config.set R sect t (.vnum q)).2 ≠ .rejected ∧
          Config.get (Config.set R sect t (.vnum q)).1 sect t = some (.vnum c) ∧
          lo ≤ c ∧ c ≤ hi ∧
          c = snapQ (step it.datatype r) (clampQ lo hi q) ∧
          (∀ m : ℤ, |c - clampQ lo hi q| ≤
            |(m : ℚ) * step it.datatype r - clampQ lo hi q|) ∧
          (it.datatype = .dint → ∃ z : ℤ, c = (z : ℚ)) ∧
          (it.datatype = .dfloat → ∃ z : ℤ, c = (z : ℚ) / 10 ^ r)) := by
  obtain ⟨hmp4, rfl⟩ := set_defaults_some vexts R hR
  refine ⟨fun s hs it hit => (builtRegistry_facts vexts hmp4 s hs it hit).2.2.2.1, ?_⟩
  intro sect t it hit r hro lo hi hmm' q
  obtain ⟨s, hsmem, hitmem, _, _⟩ := findItem_mem hit
  have hfacts := builtRegistry_facts vexts hmp4 s hsmem it hitmem
  obtain ⟨hchn, hlohi, hrost⟩ := hfacts.2.2.1 lo hi hmm'
  obtain ⟨hs0, hglo, hghi⟩ := hrost r hro
  have hdt : it.datatype = .dint ∨ it.datatype = .dfloat :=
    hfacts.2.1.2.1 (by rw [hmm']; rfl)
  have hval0 := validateValue_minmax_round hchn hmm' hro hdt q
  have heq : clampQ lo hi (snapQ (step it.datatype r) (clampQ lo hi q)) =
      snapQ (step it.datatype r) (clampQ lo hi q) :=
    commit_round_eq hlohi hs0 hglo hghi q
  obtain ⟨hset, hget⟩ := set_spec hit hval0
  rw [heq] at hget
  refine ⟨snapQ (step it.datatype r) (clampQ lo hi q), ?_, hget, ?_, ?_, rfl, ?_, ?_, ?_⟩
  · rw [hset]
    show (if _ = _ then SetResult.committed _ else SetResult.committedWithAdjustment _ _) ≠
      SetResult.rejected
    split_ifs <;> simp
  · rw [← heq]
    exact (clampQ_mem hlohi _).1
  · rw [← heq]
    exact (clampQ_mem hlohi _).2
  · exact fun m => snapQ_nearest hs0 m
  · intro hdint
    refine ⟨round (clampQ lo hi q / step it.datatype r) * (r : ℤ), ?_⟩
    rw [snapQ, hdint]
    rw [show step Datatype.dint r = ((r : ℕ) : ℚ) from rfl]
    push_cast
    ring
  · intro hdfloat
    refine ⟨round (clampQ lo hi q / step it.datatype r), ?_⟩
    rw [snapQ, hdfloat]
    rw [show step Datatype.dfloat r = (1 / 10) ^ r from rfl]
    rw [div_pow, one_pow, mul_one_div]

theorem spec_C6_witness :
    ∃ c : ℚ,
      (Config.set (builtRegistry [".mp4"]) "video.libx264" "crf" (.vnum 60)).2 ≠ .rejected ∧
      Config.get (Config.set (builtRegistry [".mp4"]) "video.libx264" "crf"
        (.vnum 60)).1 "video.libx264" "crf" = some (.vnum c) ∧
      (0 : ℚ) ≤ c ∧ c ≤ 51 ∧
      c = snapQ (step .dint 1) (clampQ 0 51 60) ∧
      (∀ m : ℤ, |c - clampQ 0 51 60| ≤ |(m : ℚ) * step .dint 1 - clampQ 0 51 60|) ∧
      (Datatype.dint = .dint → ∃ z : ℤ, c = (z : ℚ)) ∧
      (Datatype.dint = .dfloat → ∃ z : ℤ, c = (z : ℚ) / 10 ^ 1) :=
  (spec_C6 [".mp4"] (builtRegistry [".mp4"]) (set_defaults_eq [".mp4"] (by decide))).2
    "video.libx264" "crf"
    ⟨"crf", .dint, .vnum 23, none, some (0, 51), some 1, .vnum 23⟩ rfl 1 rfl 0 51 rfl 60
